import Mathlib

/-
Shallow embedding of the defsim defense-simulation core (Rust sources under
src/).  Machine floats (f64) are modelled as real numbers; u32/u64 counters as
Nat; Rust String as Lean String; Vec/VecDeque as List; HashMap as an
association list.  Each definition mirrors one Rust item and is named after
it.  Logging calls in the source are ignored (they do not change state).
-/

noncomputable section

open Classical

/-- Rust `f64::clamp(lo, hi)`: lo if v < lo, hi if v > hi, else v. -/
def fclamp (v lo hi : ℝ) : ℝ :=
  if v < lo then lo else if v > hi then hi else v

/-- Rust `f64::signum` (sign of +0.0 is 1.0, modelled as 0 ≤ x → 1). -/
def fsignum (x : ℝ) : ℝ :=
  if 0 ≤ x then 1 else -1

/-- Rust `f64` `%` operator: remainder with truncated division. -/
def frem (a b : ℝ) : ℝ :=
  a - b * (if 0 ≤ a / b then (⌊a / b⌋ : ℝ) else (⌈a / b⌉ : ℝ))

/-- Rust `f64::atan2(self = y, other = x)` modelled over ℝ. -/
def fatan2 (y x : ℝ) : ℝ :=
  if 0 < x then Real.arctan (y / x)
  else if x < 0 then
    (if 0 ≤ y then Real.arctan (y / x) + Real.pi else Real.arctan (y / x) - Real.pi)
  else
    (if 0 < y then Real.pi / 2 else if y < 0 then -(Real.pi / 2) else 0)

/-- `math_utils::deg_to_rad` (src/models/common.rs). -/
def deg_to_rad (degrees : ℝ) : ℝ :=
  degrees * Real.pi / 180

/-- `math_utils::rad_to_deg` (src/models/common.rs). -/
def rad_to_deg (radians : ℝ) : ℝ :=
  radians * 180 / Real.pi

/-- `math_utils::normalize_angle` (src/models/common.rs). -/
def normalize_angle (angle_deg : ℝ) : ℝ :=
  let normalized := frem angle_deg 360
  if normalized > 180 then normalized - 360
  else if normalized ≤ -180 then normalized + 360
  else normalized

/-- `math_utils::angle_difference` (src/models/common.rs). -/
def angle_difference (angle1_deg angle2_deg : ℝ) : ℝ :=
  normalize_angle (angle2_deg - angle1_deg)

/-- Two zero characters, used by `pad3`. -/
def zeroZero : String := "00"

/-- One zero character, used by `pad3`. -/
def zeroStr : String := "0"

/-- Rust `format!("{:03}", n)`: zero-pad to width 3. -/
def pad3 (n : Nat) : String :=
  if n < 10 then zeroZero ++ toString n
  else if n < 100 then zeroStr ++ toString n
  else toString n

/-- `Position3D` (src/models/common.rs); f64 fields as ℝ. -/
structure Position3D where
  x : ℝ
  y : ℝ
  z : ℝ


/-- `Position3D::new`: clamps Z to [0, 5000]. -/
def Position3D.new (x y z : ℝ) : Position3D :=
  { x := x, y := y, z := fclamp z 0 5000 }

/-- `Position3D::distance_xy`. -/
def Position3D.distance_xy (a b : Position3D) : ℝ :=
  Real.sqrt ((a.x - b.x) ^ 2 + (a.y - b.y) ^ 2)

/-- `Position3D::distance_3d`. -/
def Position3D.distance_3d (a b : Position3D) : ℝ :=
  Real.sqrt ((a.x - b.x) ^ 2 + (a.y - b.y) ^ 2 + (a.z - b.z) ^ 2)

/-- `Position3D::magnitude`. -/
def Position3D.magnitude (a : Position3D) : ℝ :=
  Real.sqrt (a.x ^ 2 + a.y ^ 2 + a.z ^ 2)

/-- `Position3D::is_in_simulation_bounds`. -/
def Position3D.is_in_simulation_bounds (a : Position3D) : Prop :=
  -1000000 ≤ a.x ∧ a.x ≤ 1000000 ∧
  -1000000 ≤ a.y ∧ a.y ≤ 1000000 ∧
  0 ≤ a.z ∧ a.z ≤ 5000

/-- `impl Add for Position3D` — routes through `Position3D::new`. -/
def Position3D.add (a b : Position3D) : Position3D :=
  Position3D.new (a.x + b.x) (a.y + b.y) (a.z + b.z)

/-- `impl Sub for Position3D` — routes through `Position3D::new`. -/
def Position3D.sub (a b : Position3D) : Position3D :=
  Position3D.new (a.x - b.x) (a.y - b.y) (a.z - b.z)

/-- `Velocity3D` (src/models/common.rs). -/
structure Velocity3D where
  x : ℝ
  y : ℝ
  z : ℝ


/-- `Velocity3D::new`. -/
def Velocity3D.new (x y z : ℝ) : Velocity3D :=
  { x := x, y := y, z := z }

/-- `Velocity3D::magnitude`. -/
def Velocity3D.magnitude (v : Velocity3D) : ℝ :=
  Real.sqrt (v.x ^ 2 + v.y ^ 2 + v.z ^ 2)

/-- `Velocity3D::magnitude_xy`. -/
def Velocity3D.magnitude_xy (v : Velocity3D) : ℝ :=
  Real.sqrt (v.x ^ 2 + v.y ^ 2)

/-- `Velocity3D::normalize`. -/
def Velocity3D.normalize (v : Velocity3D) : Velocity3D :=
  let mag := v.magnitude
  if mag > 0 then Velocity3D.new (v.x / mag) (v.y / mag) (v.z / mag) else v

/-- `Velocity3D::clamp_magnitude`. -/
def Velocity3D.clamp_magnitude (v : Velocity3D) (max_speed : ℝ) : Velocity3D :=
  let mag := v.magnitude
  if mag > max_speed then
    let factor := max_speed / mag
    Velocity3D.new (v.x * factor) (v.y * factor) (v.z * factor)
  else v

/-- `Acceleration3D` (src/models/common.rs). -/
structure Acceleration3D where
  x : ℝ
  y : ℝ
  z : ℝ


/-- `Acceleration3D::new`. -/
def Acceleration3D.new (x y z : ℝ) : Acceleration3D :=
  { x := x, y := y, z := z }

/-- `Acceleration3D::magnitude`. -/
def Acceleration3D.magnitude (a : Acceleration3D) : ℝ :=
  Real.sqrt (a.x ^ 2 + a.y ^ 2 + a.z ^ 2)

/-- `Acceleration3D::clamp_magnitude`. -/
def Acceleration3D.clamp_magnitude (a : Acceleration3D) (max_accel : ℝ) : Acceleration3D :=
  let mag := a.magnitude
  if mag > max_accel then
    let factor := max_accel / mag
    Acceleration3D.new (a.x * factor) (a.y * factor) (a.z * factor)
  else a

/-- `impl Add for Acceleration3D`. -/
def Acceleration3D.add (a b : Acceleration3D) : Acceleration3D :=
  Acceleration3D.new (a.x + b.x) (a.y + b.y) (a.z + b.z)

/-- `impl Mul for Acceleration3D` (scalar). -/
def Acceleration3D.smul (a : Acceleration3D) (scalar : ℝ) : Acceleration3D :=
  Acceleration3D.new (a.x * scalar) (a.y * scalar) (a.z * scalar)

/-- `impl Add for Velocity3D`. -/
def Velocity3D.add (v w : Velocity3D) : Velocity3D :=
  Velocity3D.new (v.x + w.x) (v.y + w.y) (v.z + w.z)

/-- `impl Mul for Velocity3D` (scalar). -/
def Velocity3D.smul (v : Velocity3D) (scalar : ℝ) : Velocity3D :=
  Velocity3D.new (v.x * scalar) (v.y * scalar) (v.z * scalar)

/-- `impl Add of Acceleration3D to Velocity3D` (src/models/common.rs). -/
def Velocity3D.addAccel (v : Velocity3D) (acceleration : Acceleration3D) : Velocity3D :=
  Velocity3D.new (v.x + acceleration.x) (v.y + acceleration.y) (v.z + acceleration.z)

/-- `AgentStatus` (src/models/common.rs). -/
inductive AgentStatus where
  | Active
  | Destroyed
  | Reached
  | SelfDestruct
  | Inactive
deriving DecidableEq

/-- `GuidancePhase` (src/models/missile.rs). -/
inductive GuidancePhase where
  | Boost
  | Midcourse
  | Endgame
deriving DecidableEq

/-- `MissileEndReason` (src/models/missile.rs). -/
inductive MissileEndReason where
  | Hit
  | SelfDestruct
  | TargetLost
  | OutOfBounds
deriving DecidableEq

/-- `Attitude3D` (src/models/missile.rs). -/
structure Attitude3D where
  pitch : ℝ
  yaw : ℝ
  roll : ℝ

/-- `Attitude3D::new`. -/
def Attitude3D.new (pitch yaw roll : ℝ) : Attitude3D :=
  { pitch := pitch, yaw := yaw, roll := roll }

/-- `Attitude3D::from_velocity`. -/
def Attitude3D.from_velocity (velocity : Velocity3D) : Attitude3D :=
  let speed_xy := velocity.magnitude_xy
  let pitch := if speed_xy > 0 then rad_to_deg (fatan2 velocity.z speed_xy) else 0
  let yaw :=
    if |velocity.x| > 1e-10 ∨ |velocity.y| > 1e-10 then
      rad_to_deg (fatan2 velocity.y velocity.x)
    else 0
  Attitude3D.new pitch yaw 0

/-- `MissileKinematics` scenario section (src/scenario.rs). -/
structure MissileKinematics where
  initial_speed_mps : ℝ
  max_speed_mps : ℝ
  max_accel_mps2 : ℝ
  max_turn_rate_deg_s : ℝ
  intercept_radius_m : ℝ

/-- `MissileGuidanceConfig` scenario section (src/scenario.rs). -/
structure MissileGuidanceConfig where
  n : ℝ
  endgame_factor : ℝ
  endgame_miss_increase_ticks : Nat

/-- `DistanceConventions` scenario section (src/scenario.rs); only the
fields read by the embedded functions are carried. -/
structure DistanceConventions where
  intercept : String

/-- `WorldConfig` scenario section, restricted to the fields the embedded
functions read (src/scenario.rs). -/
structure WorldConfig where
  distance_conventions : DistanceConventions

/-- `PolicyConfig` scenario section, restricted to the fields the embedded
functions read (src/scenario.rs). -/
structure PolicyConfig where
  missile_guidance : MissileGuidanceConfig
  launcher_initially_cooled : Bool

/-- `MissileDefaults` scenario section (src/scenario.rs). -/
structure MissileDefaults where
  kinematics : MissileKinematics

/-- `ScenarioConfig` (src/scenario.rs), restricted to the sections the
embedded functions read. -/
structure ScenarioConfig where
  world : WorldConfig
  policy : PolicyConfig
  missile_defaults : MissileDefaults

/-- `Missile` (src/models/missile.rs). -/
structure Missile where
  id : String
  position : Position3D
  velocity : Velocity3D
  acceleration : Acceleration3D
  target_id : String
  status : AgentStatus
  initial_speed : ℝ
  max_speed : ℝ
  max_accel : ℝ
  max_turn_rate : ℝ
  intercept_radius : ℝ
  guidance_n : ℝ
  guidance_phase : GuidancePhase
  endgame_threshold : ℝ
  miss_distance_history : List ℝ
  miss_increase_count : Nat
  endgame_miss_increase_ticks : Nat
  attitude : Attitude3D
  turn_rate : ℝ
  flight_time : ℝ
  total_distance : ℝ
  end_reason : Option MissileEndReason

/-- `Missile::new` (src/models/missile.rs). -/
def Missile.new (id : String) (launch_position : Position3D) (target_id : String) : Missile :=
  { id := id
    position := launch_position
    velocity := Velocity3D.new 0 0 0
    acceleration := Acceleration3D.new 0 0 0
    target_id := target_id
    status := AgentStatus.Active
    initial_speed := 0
    max_speed := 0
    max_accel := 0
    max_turn_rate := 0
    intercept_radius := 0
    guidance_n := 0
    guidance_phase := GuidancePhase.Boost
    endgame_threshold := 0
    miss_distance_history := []
    miss_increase_count := 0
    endgame_miss_increase_ticks := 0
    attitude := Attitude3D.new 0 0 0
    turn_rate := 0
    flight_time := 0
    total_distance := 0
    end_reason := none }

/-- `ICollision::check_collision for Missile` (src/models/missile.rs). -/
def Missile.check_collision (m : Missile) (target_position : Position3D) : Prop :=
  m.position.distance_3d target_position ≤ m.intercept_radius

/-- `ICollision::calculate_miss_distance for Missile` (src/models/missile.rs). -/
def Missile.calculate_miss_distance (m : Missile) (target_position : Position3D) : ℝ :=
  m.position.distance_3d target_position

/-- `Missile::calculate_direct_pursuit` (src/models/missile.rs). -/
def Missile.calculate_direct_pursuit (m : Missile) (target_position : Position3D) : Acceleration3D :=
  let direction := target_position.sub m.position
  let distance := direction.magnitude
  if distance < 1e-6 then Acceleration3D.new 0 0 0
  else
    let accel_magnitude := m.max_accel
    Acceleration3D.new
      (direction.x / distance * accel_magnitude)
      (direction.y / distance * accel_magnitude)
      (direction.z / distance * accel_magnitude)

/-- `Missile::calculate_proportional_navigation` (src/models/missile.rs); the
`&mut self` receiver never writes, so it is embedded as a pure function. -/
def Missile.calculate_proportional_navigation (m : Missile) (target_position : Position3D) : Acceleration3D :=
  let relative_position := target_position.sub m.position
  let relative_distance := relative_position.magnitude
  if relative_distance < 1e-6 then Acceleration3D.new 0 0 0
  else
    let relative_velocity := m.velocity
    let los_unit := Position3D.new
      (relative_position.x / relative_distance)
      (relative_position.y / relative_distance)
      (relative_position.z / relative_distance)
    let closing_velocity := -(relative_velocity.x * los_unit.x +
      relative_velocity.y * los_unit.y + relative_velocity.z * los_unit.z)
    if closing_velocity ≤ 0 then m.calculate_direct_pursuit target_position
    else
      let los_rate_x := (relative_velocity.y * los_unit.z - relative_velocity.z * los_unit.y) / relative_distance
      let los_rate_y := (relative_velocity.z * los_unit.x - relative_velocity.x * los_unit.z) / relative_distance
      let los_rate_z := (relative_velocity.x * los_unit.y - relative_velocity.y * los_unit.x) / relative_distance
      Acceleration3D.new
        (m.guidance_n * closing_velocity * los_rate_x)
        (m.guidance_n * closing_velocity * los_rate_y)
        (m.guidance_n * closing_velocity * los_rate_z)

/-- `Missile::update_guidance_phase` (src/models/missile.rs); log emission dropped. -/
def Missile.update_guidance_phase (m : Missile) (target_position : Position3D) : Missile :=
  let distance := m.position.distance_3d target_position
  match m.guidance_phase with
  | GuidancePhase.Boost =>
      if m.flight_time > 2 then { m with guidance_phase := GuidancePhase.Midcourse } else m
  | GuidancePhase.Midcourse =>
      if distance ≤ m.endgame_threshold then { m with guidance_phase := GuidancePhase.Endgame } else m
  | GuidancePhase.Endgame => m

/-- `Missile::track_miss_distance` (src/models/missile.rs): returns the
self-destruct flag together with the updated missile. -/
def Missile.track_miss_distance (m : Missile) (target_position : Position3D) : Bool × Missile :=
  let miss_distance := m.calculate_miss_distance target_position
  let hist_pushed := m.miss_distance_history ++ [miss_distance]
  let hist := if hist_pushed.length > 10 then hist_pushed.tail else hist_pushed
  let m1 := { m with miss_distance_history := hist }
  if m1.guidance_phase = GuidancePhase.Endgame ∧ 2 ≤ hist.length then
    let len := hist.length
    let current_miss := hist.getD (len - 1) 0
    let previous_miss := hist.getD (len - 2) 0
    let count := if current_miss > previous_miss then m1.miss_increase_count + 1 else 0
    let m2 := { m1 with miss_increase_count := count }
    if m2.endgame_miss_increase_ticks ≤ count then
      (true, { m2 with status := AgentStatus.SelfDestruct,
                       end_reason := some MissileEndReason.SelfDestruct })
    else (false, m2)
  else (false, m1)

/-- `Missile::update_attitude` (src/models/missile.rs). -/
def Missile.update_attitude (m : Missile) (dt : ℝ) : Missile :=
  let new_attitude := Attitude3D.from_velocity m.velocity
  let pitch_change := angle_difference m.attitude.pitch new_attitude.pitch
  let yaw_change := angle_difference m.attitude.yaw new_attitude.yaw
  let max_angle_change := m.max_turn_rate * dt
  let pitch_limited :=
    if |pitch_change| > max_angle_change then m.attitude.pitch + fsignum pitch_change * max_angle_change
    else new_attitude.pitch
  let yaw_limited :=
    if |yaw_change| > max_angle_change then m.attitude.yaw + fsignum yaw_change * max_angle_change
    else new_attitude.yaw
  { m with attitude := { pitch := pitch_limited, yaw := yaw_limited, roll := m.attitude.roll }
           turn_rate := (|pitch_change| + |yaw_change|) / dt }

/-- `Missile::update_kinematics` (src/models/missile.rs). -/
def Missile.update_kinematics (m : Missile) (dt : ℝ) (target_position : Position3D) : Missile :=
  let acceleration :=
    match m.guidance_phase with
    | GuidancePhase.Boost =>
        let boost_accel := Acceleration3D.new 0 0 (m.max_accel * 0.5)
        let guidance_accel := m.calculate_proportional_navigation target_position
        boost_accel.add (Acceleration3D.new (guidance_accel.x * 0.5) (guidance_accel.y * 0.5) 0)
    | _ => m.calculate_proportional_navigation target_position
  let acceleration := acceleration.clamp_magnitude m.max_accel
  let velocity := m.velocity.addAccel (acceleration.smul dt)
  let velocity := velocity.clamp_magnitude m.max_speed
  let previous_position := m.position
  let position := m.position.add (Position3D.new (velocity.x * dt) (velocity.y * dt) (velocity.z * dt))
  let position := { position with z := fclamp position.z 0 5000 }
  let m1 := { m with acceleration := acceleration, velocity := velocity, position := position }
  let m2 := m1.update_attitude dt
  { m2 with flight_time := m2.flight_time + dt
            total_distance := m2.total_distance + previous_position.distance_3d position }

/-- `Missile::perform_checks` (src/models/missile.rs); log emission dropped.
The boolean returned by `track_miss_distance` is discarded, exactly as in the
source, so the collision branch still runs after a self-destruct. -/
def Missile.perform_checks (m : Missile) (target_position : Position3D) : Missile :=
  if ¬ m.position.is_in_simulation_bounds then
    { m with status := AgentStatus.SelfDestruct, end_reason := some MissileEndReason.OutOfBounds }
  else
    let m1 := m.update_guidance_phase target_position
    let m2 := (m1.track_miss_distance target_position).2
    if m2.check_collision target_position then
      { m2 with status := AgentStatus.Destroyed, end_reason := some MissileEndReason.Hit }
    else m2

/-- `IAgent::tick for Missile` (src/models/missile.rs): the target position is
the hard-coded placeholder origin from the source, not the bound target. -/
def Missile.tick (m : Missile) (dt : ℝ) : Missile :=
  if m.status ≠ AgentStatus.Active then m
  else
    let target_position := Position3D.new 0 0 0
    (m.update_kinematics dt target_position).perform_checks target_position

/-- `IAgent::is_active for Missile` (src/models/missile.rs). -/
def Missile.is_active (m : Missile) : Prop :=
  m.status = AgentStatus.Active

/-- `IAgent::initialize for Missile` (src/models/missile.rs), renamed because
`initialize` is reserved here; the trailing match on the intercept distance
convention has no effect in the source and is therefore not represented. -/
def Missile.initFromConfig (m : Missile) (scenario_config : ScenarioConfig) : Missile :=
  let mk := scenario_config.missile_defaults.kinematics
  let gc := scenario_config.policy.missile_guidance
  let velocity := Velocity3D.new 0 0 mk.initial_speed_mps
  { m with status := AgentStatus.Active
           flight_time := 0
           total_distance := 0
           miss_distance_history := []
           miss_increase_count := 0
           initial_speed := mk.initial_speed_mps
           max_speed := mk.max_speed_mps
           max_accel := mk.max_accel_mps2
           max_turn_rate := mk.max_turn_rate_deg_s
           intercept_radius := mk.intercept_radius_m
           guidance_n := gc.n
           endgame_miss_increase_ticks := gc.endgame_miss_increase_ticks
           endgame_threshold := mk.intercept_radius_m * gc.endgame_factor
           velocity := velocity
           attitude := Attitude3D.from_velocity velocity }


/-- `Target` (src/models/target.rs). -/
structure Target where
  id : String
  position : Position3D
  velocity : Velocity3D
  destination : Position3D
  arrival_radius : ℝ
  endurance : Nat
  max_endurance : Nat
  status : AgentStatus
  group_id : String
  spawn_time : ℝ
  speed : ℝ

/-- `IAgent::is_active for Target` (src/models/target.rs). -/
def Target.is_active (t : Target) : Prop :=
  t.status = AgentStatus.Active

/-- `Target::check_spawn` (src/models/target.rs). -/
def Target.check_spawn (t : Target) (current_time : ℝ) : Target :=
  if t.status = AgentStatus.Inactive ∧ current_time ≥ t.spawn_time then
    { t with status := AgentStatus.Active }
  else t

/-- `Target::check_arrival` (src/models/target.rs). -/
def Target.check_arrival (t : Target) : Target :=
  if t.status = AgentStatus.Active then
    if t.position.distance_xy t.destination ≤ t.arrival_radius then
      { t with status := AgentStatus.Reached }
    else t
  else t

/-- `Target::check_out_of_bounds` (src/models/target.rs). -/
def Target.check_out_of_bounds (t : Target) : Target :=
  if t.status = AgentStatus.Active ∧ ¬ t.position.is_in_simulation_bounds then
    { t with status := AgentStatus.Inactive }
  else t

/-- `IMovable::move_agent for Target` (src/models/target.rs): the
displacement is built with `Position3D::new` and added with the overloaded
`+`, both of which clamp their Z component. -/
def Target.move_agent (t : Target) (dt : ℝ) : Target :=
  if t.status = AgentStatus.Active then
    let position := t.position.add
      (Position3D.new (t.velocity.x * dt) (t.velocity.y * dt) (t.velocity.z * dt))
    { t with position := { position with z := fclamp position.z 0 5000 } }
  else t

/-- `Target::calculate_time_to_go` (src/models/target.rs); `f64::INFINITY`
for a non-moving or non-active target is modelled as `none`. -/
def Target.calculate_time_to_go (t : Target) : Option ℝ :=
  if t.status ≠ AgentStatus.Active then none
  else
    let distance_xy := t.position.distance_xy t.destination
    let remaining_distance := max (distance_xy - t.arrival_radius) 0
    if t.speed > 0 then some (remaining_distance / t.speed) else none

/-- `IAgent::tick for Target` (src/models/target.rs).  The source
accumulates time in a file-scope `static mut CURRENT_TIME` which every call
advances by `dt`; that global is threaded here as an explicit `clock`
argument returned alongside the updated target. -/
def Target.tick (clock dt : ℝ) (t : Target) : ℝ × Target :=
  let clock := clock + dt
  let t := t.check_spawn clock
  if t.status = AgentStatus.Active then
    (clock, ((t.move_agent dt).check_arrival).check_out_of_bounds)
  else (clock, t)

/-- `LaunchRecord` (src/models/launcher.rs). -/
structure LaunchRecord where
  timestamp : ℝ
  missile_id : String
  target_id : String
  launch_position : Position3D

/-- `Launcher` (src/models/launcher.rs). -/
structure Launcher where
  id : String
  position : Position3D
  status : AgentStatus
  max_missiles : Nat
  current_missiles : Nat
  cooldown_time : ℝ
  cooldown_remaining : ℝ
  launch_queue : List String
  launch_history : List LaunchRecord
  missile_counter : Nat
  missile_initial_speed : ℝ
  missile_max_speed : ℝ
  missile_max_accel : ℝ
  missile_max_turn_rate : ℝ
  missile_intercept_radius : ℝ

/-- `IPlatform::can_launch for Launcher` (src/models/launcher.rs). -/
def Launcher.can_launch (l : Launcher) : Prop :=
  l.status = AgentStatus.Active ∧ 0 < l.current_missiles ∧ l.cooldown_remaining ≤ 0

/-- `IAgent::is_active for Launcher` (src/models/launcher.rs). -/
def Launcher.is_active (l : Launcher) : Prop :=
  l.status = AgentStatus.Active

/-- Separator used by `Launcher::fire_missile` missile IDs (`_M` of
`format!("{}_M{:03}", ..)`). -/
def underscoreM : String := "_M"

/-- Separator used by `Launcher::fire_missile_at_target` missile IDs (`_` of
`format!("{}_{:03}", ..)`). -/
def underscoreSep : String := "_"

/-- `Launcher::fire_missile` (src/models/launcher.rs): returns the optional
missile together with the updated launcher state. -/
def Launcher.fire_missile (l : Launcher) (target_id : String) (current_time : ℝ) :
    Option Missile × Launcher :=
  if ¬ l.can_launch then (none, l)
  else
    let missile_counter := l.missile_counter + 1
    let missile_id := l.id ++ underscoreM ++ pad3 missile_counter
    let missile := Missile.new missile_id l.position target_id
    let launch_record : LaunchRecord :=
      { timestamp := current_time
        missile_id := missile_id
        target_id := target_id
        launch_position := l.position }
    (some missile,
      { l with missile_counter := missile_counter
               current_missiles := l.current_missiles - 1
               cooldown_remaining := l.cooldown_time
               launch_history := l.launch_history ++ [launch_record] })

/-- `Launcher::fire_missile_at_target` (src/models/launcher.rs): the
engine-facing firing path; note the missile ID omits the `M` of
`fire_missile` and the launch record timestamp is hard-coded 0.0. -/
def Launcher.fire_missile_at_target (l : Launcher) (target_id : String) :
    Option Missile × Launcher :=
  if ¬ l.can_launch then (none, l)
  else
    let missile_counter := l.missile_counter + 1
    let missile_id := l.id ++ underscoreSep ++ pad3 missile_counter
    let missile := Missile.new missile_id l.position target_id
    let launch_record : LaunchRecord :=
      { timestamp := 0
        missile_id := missile.id
        target_id := target_id
        launch_position := l.position }
    (some missile,
      { l with missile_counter := missile_counter
               current_missiles := l.current_missiles - 1
               cooldown_remaining := l.cooldown_time
               launch_history := l.launch_history ++ [launch_record] })

/-- `Launcher::queue_target` (src/models/launcher.rs). -/
def Launcher.queue_target (l : Launcher) (target_id : String) : Launcher :=
  if l.launch_queue.contains target_id then l
  else { l with launch_queue := l.launch_queue ++ [target_id] }

/-- `IAgent::tick for Launcher` (src/models/launcher.rs): cooldown decrement
floored at 0, then the (self-requeueing) queue inspection. -/
def Launcher.tick (l : Launcher) (dt : ℝ) : Launcher :=
  if l.status ≠ AgentStatus.Active then l
  else
    let l :=
      if l.cooldown_remaining > 0 then
        { l with cooldown_remaining := max (l.cooldown_remaining - dt) 0 }
      else l
    if l.can_launch ∧ ¬ l.launch_queue.isEmpty then
      match l.launch_queue with
      | [] => l
      | target_id :: rest => Launcher.queue_target { l with launch_queue := rest } target_id
    else l

/-- `TargetPriority` (src/models/command_post.rs); `assigned_missiles` and
`target_endurance` are u32 counters. -/
structure TargetPriority where
  target_id : String
  tgo : Option ℝ
  distance_xy : ℝ
  assigned_missiles : Nat
  target_endurance : Nat

/-- `MissileAssignment` (src/simulation.rs). -/
structure MissileAssignment where
  launcher_id : String
  target_id : String
  priority : Option ℝ

/-- `CommandPost` (src/models/command_post.rs); the `HashMap` of
assignments is modelled as an association list. -/
structure CommandPost where
  id : String
  position : Position3D
  arrival_radius : ℝ
  status : AgentStatus
  detected_targets : List String
  missile_assignments : List (String × List String)
  target_priorities : List TargetPriority

/-- `IAgent::is_active for CommandPost` (src/models/command_post.rs). -/
def CommandPost.is_active (cp : CommandPost) : Prop :=
  cp.status = AgentStatus.Active

/-- Iteration core of `CommandPost::get_missile_assignment`. -/
def get_missile_assignment_loop (launcher_id : String) :
    List TargetPriority → Option MissileAssignment
  | [] => none
  | p :: ps =>
      if p.assigned_missiles < p.target_endurance then
        some { launcher_id := launcher_id, target_id := p.target_id, priority := p.tgo }
      else get_missile_assignment_loop launcher_id ps

/-- `CommandPost::get_missile_assignment` (src/models/command_post.rs); the
`&mut self` receiver never writes, so it is embedded as a pure function. -/
def CommandPost.get_missile_assignment (cp : CommandPost) (launcher_id : String) :
    Option MissileAssignment :=
  get_missile_assignment_loop launcher_id cp.target_priorities

/-- The `L` of the synthesized launcher IDs `format!("L{:03}", index + 1)`
in `CommandPost::select_best_launcher`. -/
def fakeIdPrefix : String := "L"

/-- Loop state and iteration of `CommandPost::select_best_launcher`
(src/models/command_post.rs).  The source starts from
`best_cooldown = best_distance = f64::INFINITY`; since every candidate that
passes `can_launch` has a finite cooldown and distance, that sentinel is
modelled by `none` (the first candidate is always accepted), mirroring the
`is_better` disjunction otherwise verbatim.  As in the source, the distance
is the provisional `target_position.distance_xy(&self.position)` (the same
value for every launcher) and the ID is the synthesized `format!("L{:03}",
index + 1)`, not the launcher's own ID. -/
def select_best_launcher_loop (cp_position : Position3D) (target_position : Position3D) :
    Nat → Option (Nat × ℝ × ℝ × String) → List Launcher → Option (Nat × ℝ × ℝ × String)
  | _, best, [] => best
  | index, best, launcher :: rest =>
      if launcher.can_launch then
        let cooldown := launcher.cooldown_remaining
        let distance := target_position.distance_xy cp_position
        let launcher_id := fakeIdPrefix ++ pad3 (index + 1)
        let candidate := some (index, cooldown, distance, launcher_id)
        match best with
        | none =>
            select_best_launcher_loop cp_position target_position (index + 1) candidate rest
        | some (best_index, best_cooldown, best_distance, best_id) =>
            if cooldown < best_cooldown ∨
               (cooldown = best_cooldown ∧ distance < best_distance) ∨
               (cooldown = best_cooldown ∧ distance = best_distance ∧ launcher_id < best_id) then
              select_best_launcher_loop cp_position target_position (index + 1) candidate rest
            else
              select_best_launcher_loop cp_position target_position (index + 1)
                (some (best_index, best_cooldown, best_distance, best_id)) rest
      else select_best_launcher_loop cp_position target_position (index + 1) best rest

/-- `CommandPost::select_best_launcher` (src/models/command_post.rs). -/
def CommandPost.select_best_launcher (cp : CommandPost) (launchers : List Launcher)
    (target_position : Position3D) : Option Nat :=
  (select_best_launcher_loop cp.position target_position 0 none launchers).map
    (fun best => best.1)


/-- `SimulationEngine` (src/simulation.rs), restricted to the state the
embedded phase functions read or write.  `target_tick_clock` models the
file-scope `static mut CURRENT_TIME` inside `Target::tick`, which is
distinct from the engine's own `current_time`. -/
structure SimulationEngine where
  current_time : ℝ
  dt : ℝ
  command_post : CommandPost
  launchers : List Launcher
  targets : List Target
  missiles : List Missile
  scenario_config : ScenarioConfig
  target_tick_clock : ℝ

/-- Loop of `SimulationEngine::process_targets`: each target is ticked only
when it already `is_active()` and `current_time ≥ spawn_time`; the static
time accumulator is threaded through the calls that happen. -/
def process_targets_loop (now dt : ℝ) : ℝ → List Target → ℝ × List Target
  | clock, [] => (clock, [])
  | clock, t :: ts =>
      if t.is_active ∧ now ≥ t.spawn_time then
        let next := Target.tick clock dt t
        let rest := process_targets_loop now dt next.1 ts
        (rest.1, next.2 :: rest.2)
      else
        let rest := process_targets_loop now dt clock ts
        (rest.1, t :: rest.2)

/-- `SimulationEngine::process_targets` (src/simulation.rs). -/
def SimulationEngine.process_targets (e : SimulationEngine) : SimulationEngine :=
  let result := process_targets_loop e.current_time e.dt e.target_tick_clock e.targets
  { e with targets := result.2, target_tick_clock := result.1 }

/-- `SimulationEngine::process_missiles` (src/simulation.rs): tick every
active missile (against the placeholder origin inside `Missile::tick`), then
retain only the still-active ones.  No target state is consulted. -/
def SimulationEngine.process_missiles (e : SimulationEngine) : SimulationEngine :=
  let ticked := e.missiles.map (fun m => if m.is_active then m.tick e.dt else m)
  { e with missiles := ticked.filter (fun m => m.status = AgentStatus.Active) }

/-- Loop of `SimulationEngine::process_launchers`: for each active launcher,
ask the command post for an assignment, fire, initialize and append the new
missile, then tick the launcher.  The command post is only read (its
assignment bookkeeping is never updated on this path). -/
def process_launchers_loop (cp : CommandPost) (cfg : ScenarioConfig) (dt : ℝ) :
    List Launcher → List Missile → List Launcher × List Missile
  | [], missiles => ([], missiles)
  | l :: ls, missiles =>
      if l.is_active then
        let fired :=
          match cp.get_missile_assignment l.id with
          | some assignment =>
              match l.fire_missile_at_target assignment.target_id with
              | (some new_missile, l1) => (l1, missiles ++ [new_missile.initFromConfig cfg])
              | (none, l1) => (l1, missiles)
          | none => (l, missiles)
        let l2 := fired.1.tick dt
        let rest := process_launchers_loop cp cfg dt ls fired.2
        (l2 :: rest.1, rest.2)
      else
        let rest := process_launchers_loop cp cfg dt ls missiles
        (l :: rest.1, rest.2)

/-- `SimulationEngine::process_launchers` (src/simulation.rs). -/
def SimulationEngine.process_launchers (e : SimulationEngine) : SimulationEngine :=
  let result := process_launchers_loop e.command_post e.scenario_config e.dt e.launchers e.missiles
  { e with launchers := result.1, missiles := result.2 }


/-- Evaluation helper: `Real.sqrt a = b` from `b ^ 2 = a` and `0 ≤ b`. -/
lemma sqrt_eq_of_sq {a b : ℝ} (hb : 0 ≤ b) (h : b ^ 2 = a) : Real.sqrt a = b := by
  rw [← h, Real.sqrt_sq hb]

/-- `fclamp` stays above its lower bound. -/
lemma le_fclamp_lo {v lo hi : ℝ} (h : lo ≤ hi) : lo ≤ fclamp v lo hi := by
  unfold fclamp
  split_ifs <;> linarith

/-- `fclamp` stays below its upper bound. -/
lemma fclamp_le_hi {v lo hi : ℝ} (h : lo ≤ hi) : fclamp v lo hi ≤ hi := by
  unfold fclamp
  split_ifs <;> linarith

/-- Magnitude of a componentwise-scaled triple. -/
lemma sqrt_scale (x y z f : ℝ) :
    Real.sqrt ((x * f) ^ 2 + (y * f) ^ 2 + (z * f) ^ 2) =
      |f| * Real.sqrt (x ^ 2 + y ^ 2 + z ^ 2) := by
  rw [show (x * f) ^ 2 + (y * f) ^ 2 + (z * f) ^ 2 = f ^ 2 * (x ^ 2 + y ^ 2 + z ^ 2) by ring,
    Real.sqrt_mul (sq_nonneg f), Real.sqrt_sq_eq_abs]

/-- `Velocity3D::clamp_magnitude` caps the magnitude at a nonnegative bound. -/
lemma velocity_clamp_magnitude_le (v : Velocity3D) {max_speed : ℝ} (h : 0 ≤ max_speed) :
    (v.clamp_magnitude max_speed).magnitude ≤ max_speed := by
  unfold Velocity3D.clamp_magnitude
  by_cases hm : v.magnitude > max_speed
  · have hpos : 0 < v.magnitude := lt_of_le_of_lt h hm
    have hfac : 0 ≤ max_speed / v.magnitude := div_nonneg h (le_of_lt hpos)
    simp only [hm, if_true]
    unfold Velocity3D.new Velocity3D.magnitude
    have hpos2 : (0:ℝ) < Real.sqrt (v.x ^ 2 + v.y ^ 2 + v.z ^ 2) := hpos
    have hfac2 : (0:ℝ) ≤ max_speed / Real.sqrt (v.x ^ 2 + v.y ^ 2 + v.z ^ 2) := hfac
    rw [sqrt_scale, abs_of_nonneg hfac2, div_mul_cancel₀ _ (ne_of_gt hpos2)]
  · simp only [hm, if_false]
    exact le_of_not_lt hm

/-- `Acceleration3D::clamp_magnitude` caps the magnitude at a nonnegative bound. -/
lemma acceleration_clamp_magnitude_le (a : Acceleration3D) {max_accel : ℝ} (h : 0 ≤ max_accel) :
    (a.clamp_magnitude max_accel).magnitude ≤ max_accel := by
  unfold Acceleration3D.clamp_magnitude
  by_cases hm : a.magnitude > max_accel
  · have hpos : 0 < a.magnitude := lt_of_le_of_lt h hm
    have hfac : 0 ≤ max_accel / a.magnitude := div_nonneg h (le_of_lt hpos)
    simp only [hm, if_true]
    unfold Acceleration3D.new Acceleration3D.magnitude
    have hpos2 : (0:ℝ) < Real.sqrt (a.x ^ 2 + a.y ^ 2 + a.z ^ 2) := hpos
    have hfac2 : (0:ℝ) ≤ max_accel / Real.sqrt (a.x ^ 2 + a.y ^ 2 + a.z ^ 2) := hfac
    rw [sqrt_scale, abs_of_nonneg hfac2, div_mul_cancel₀ _ (ne_of_gt hpos2)]
  · simp only [hm, if_false]
    exact le_of_not_lt hm

/-- Shared concrete target ID. -/
def tidT1 : String := "T1"

/-- C10: the overloaded `Position3D` addition and subtraction operators route
through `Position3D::new` and therefore clamp the Z component of their
result to [0, 5000]; in particular `(a - b).z` is never negative, so any
relative-position vector built with these operators (such as the
line-of-sight vector `target_position - position` in
`calculate_proportional_navigation`) has a non-negative Z component
regardless of the true difference `a.z - b.z`. -/
theorem position_add_sub_clamp_z (a b : Position3D) :
    (Position3D.add a b).z = fclamp (a.z + b.z) 0 5000 ∧
    (Position3D.sub a b).z = fclamp (a.z - b.z) 0 5000 ∧
    0 ≤ (Position3D.sub a b).z ∧ (Position3D.sub a b).z ≤ 5000 ∧
    0 ≤ (Position3D.add a b).z ∧ (Position3D.add a b).z ≤ 5000 :=
  ⟨rfl, rfl, le_fclamp_lo (by norm_num), fclamp_le_hi (by norm_num),
    le_fclamp_lo (by norm_num), fclamp_le_hi (by norm_num)⟩

/-- C8: after `Missile::update_kinematics`, the stored velocity magnitude is
at most `max_speed` and the stored acceleration magnitude is at most
`max_accel` — the commanded acceleration is saturated before velocity
integration and the velocity is clamped after integration (given the
scenario bounds are nonnegative). -/
theorem update_kinematics_saturation (m : Missile) (dt : ℝ) (target_position : Position3D)
    (hs : 0 ≤ m.max_speed) (ha : 0 ≤ m.max_accel) :
    ((m.update_kinematics dt target_position).velocity).magnitude ≤ m.max_speed ∧
    ((m.update_kinematics dt target_position).acceleration).magnitude ≤ m.max_accel :=
  ⟨velocity_clamp_magnitude_le _ hs, acceleration_clamp_magnitude_le _ ha⟩

/-- Concrete missile used to witness `update_kinematics_saturation`. -/
def missileSatW : Missile :=
  { Missile.new tidT1 (Position3D.new 3 4 0) tidT1 with max_speed := 1, max_accel := 2 }

/-- Witness for C8 at a concrete missile. -/
theorem update_kinematics_saturation_witness :
    (0:ℝ) ≤ missileSatW.max_speed ∧ (0:ℝ) ≤ missileSatW.max_accel ∧
    ((missileSatW.update_kinematics 0.1 (Position3D.new 0 0 0)).velocity).magnitude ≤
      missileSatW.max_speed ∧
    ((missileSatW.update_kinematics 0.1 (Position3D.new 0 0 0)).acceleration).magnitude ≤
      missileSatW.max_accel := by
  have hs : (0:ℝ) ≤ missileSatW.max_speed := by norm_num [missileSatW]
  have ha : (0:ℝ) ≤ missileSatW.max_accel := by norm_num [missileSatW]
  have h := update_kinematics_saturation missileSatW 0.1 (Position3D.new 0 0 0) hs ha
  exact ⟨hs, ha, h.1, h.2⟩

/-- C9: `Launcher::fire_missile` returns `none` exactly when the launcher is
not Ready (not Active, or empty magazine, or positive cooldown) and then
leaves the launcher unchanged; when Ready it returns a missile, decrements
the magazine, resets the cooldown to `cooldown_time` and appends the launch
record `(t, missile_id, target_id, launch_position)`. -/
theorem fire_missile_spec (l : Launcher) (target_id : String) (current_time : ℝ) :
    ((l.fire_missile target_id current_time).1 = none ↔
      (l.status ≠ AgentStatus.Active ∨ l.current_missiles = 0 ∨ 0 < l.cooldown_remaining)) ∧
    ((l.fire_missile target_id current_time).1 = none →
      (l.fire_missile target_id current_time).2 = l) ∧
    (l.can_launch →
      ((l.fire_missile target_id current_time).1).isSome = true ∧
      ((l.fire_missile target_id current_time).2).current_missiles = l.current_missiles - 1 ∧
      ((l.fire_missile target_id current_time).2).cooldown_remaining = l.cooldown_time ∧
      ((l.fire_missile target_id current_time).2).launch_history =
        l.launch_history ++
          [{ timestamp := current_time
             missile_id := l.id ++ underscoreM ++ pad3 (l.missile_counter + 1)
             target_id := target_id
             launch_position := l.position }]) := by
  have hnr : ¬ l.can_launch ↔
      (l.status ≠ AgentStatus.Active ∨ l.current_missiles = 0 ∨ 0 < l.cooldown_remaining) := by
    unfold Launcher.can_launch
    constructor
    · intro hn
      by_cases h1 : l.status = AgentStatus.Active
      · right
        by_cases h2 : l.current_missiles = 0
        · exact Or.inl h2
        · right
          by_contra h3
          push_neg at h3
          exact hn ⟨h1, Nat.pos_of_ne_zero h2, h3⟩
      · exact Or.inl h1
    · rintro (h1 | h1 | h1) ⟨c1, c2, c3⟩
      · exact h1 c1
      · omega
      · linarith
  by_cases h : l.can_launch
  · have hfe : (l.fire_missile target_id current_time).1 ≠ none := by
      simp [Launcher.fire_missile, h]
    refine ⟨?_, ?_, ?_⟩
    · constructor
      · intro hnone
        exact absurd hnone hfe
      · intro hd
        exact absurd (hnr.mpr hd) (not_not_intro h)
    · intro hnone
      exact absurd hnone hfe
    · intro _
      refine ⟨?_, ?_, ?_, ?_⟩ <;> simp [Launcher.fire_missile, h]
  · have hfe : l.fire_missile target_id current_time = (none, l) := by
      simp [Launcher.fire_missile, h]
    refine ⟨?_, ?_, ?_⟩
    · rw [hfe]
      simpa using hnr.mp h
    · intro _
      rw [hfe]
    · intro hcl
      exact absurd hcl h

/-- Concrete Ready launcher used to witness `fire_missile_spec`. -/
def launcherFireW : Launcher :=
  { id := "L001"
    position := Position3D.new 0 0 0
    status := AgentStatus.Active
    max_missiles := 4
    current_missiles := 4
    cooldown_time := 5
    cooldown_remaining := 0
    launch_queue := []
    launch_history := []
    missile_counter := 0
    missile_initial_speed := 300
    missile_max_speed := 1200
    missile_max_accel := 80
    missile_max_turn_rate := 40
    missile_intercept_radius := 50 }

/-- Witness for C9: firing the concrete Ready launcher succeeds with the
claimed state updates. -/
theorem fire_missile_spec_witness :
    launcherFireW.can_launch ∧
    ((launcherFireW.fire_missile tidT1 0).1).isSome = true ∧
    ((launcherFireW.fire_missile tidT1 0).2).current_missiles =
      launcherFireW.current_missiles - 1 ∧
    ((launcherFireW.fire_missile tidT1 0).2).cooldown_remaining = launcherFireW.cooldown_time ∧
    ((launcherFireW.fire_missile tidT1 0).2).launch_history =
      launcherFireW.launch_history ++
        [{ timestamp := 0
           missile_id := launcherFireW.id ++ underscoreM ++ pad3 (launcherFireW.missile_counter + 1)
           target_id := tidT1
           launch_position := launcherFireW.position }] := by
  have hcl : launcherFireW.can_launch := by
    refine ⟨rfl, by norm_num [launcherFireW], by norm_num [launcherFireW]⟩
  exact ⟨hcl, (fire_missile_spec launcherFireW tidT1 0).2.2 hcl⟩

/-- Shared concrete group ID. -/
def gidG1 : String := "G1"

/-- The origin as built by the source placeholder `Position3D::new(0.0, 0.0, 0.0)`. -/
def originPos : Position3D := Position3D.new 0 0 0

/-- Concrete Active target with a descending velocity (C5 failing input). -/
def targetDescendW : Target :=
  { id := tidT1
    position := { x := 0, y := 0, z := 1000 }
    velocity := Velocity3D.new 0 0 (-100)
    destination := Position3D.new 0 0 0
    arrival_radius := 100
    endurance := 1
    max_endurance := 1
    status := AgentStatus.Active
    group_id := gidG1
    spawn_time := 0
    speed := 100 }

/-- C5 (code bug): `Target::move_agent` builds the per-tick displacement with
`Position3D::new`, which clamps its Z component to [0, 5000]; a negative
`velocity.z · dt` is clamped to 0 before the addition, so the Z coordinate
does not change by `velocity.z · dt` — the descending target stays at
z = 1000 although the claimed update would put it at 990. -/
theorem move_agent_clamps_z_displacement :
    (targetDescendW.move_agent 0.1).position.z = 1000 ∧
    targetDescendW.position.z + targetDescendW.velocity.z * 0.1 = 990 := by
  constructor
  · norm_num [targetDescendW, Target.move_agent, Position3D.add, Position3D.new,
      Velocity3D.new, fclamp]
  · norm_num [targetDescendW, Velocity3D.new]

/-- C7 helper: the engine-path missile ID actually minted for the first shot. -/
def mintedId : String := "L001_001"

/-- C7 helper: the missile ID the specification prescribes for the first shot. -/
def specId : String := "L001_M001"

/-- C7 (code bug): the engine firing path `Launcher::fire_missile_at_target`
mints `<launcher_id>_<NNN>` — without the `M` that the specification (and the
sibling `Launcher::fire_missile`) put between the separator and the counter. -/
theorem fire_missile_at_target_id_format :
    ((launcherFireW.fire_missile_at_target tidT1).1).map Missile.id = some mintedId ∧
    mintedId ≠ specId ∧
    ((launcherFireW.fire_missile tidT1 0).1).map Missile.id = some specId := by
  have hcl : launcherFireW.can_launch :=
    ⟨rfl, by norm_num [launcherFireW], by norm_num [launcherFireW]⟩
  refine ⟨?_, by decide, ?_⟩
  · simp only [Launcher.fire_missile_at_target, not_not_intro hcl, if_neg, if_false,
      not_true_eq_false, Option.map_some]
    simp [Missile.new, launcherFireW, underscoreSep, pad3, zeroZero, zeroStr, mintedId]
    decide
  · simp only [Launcher.fire_missile, not_not_intro hcl, if_neg, if_false,
      not_true_eq_false, Option.map_some]
    simp [Missile.new, launcherFireW, underscoreM, pad3, zeroZero, zeroStr, specId]
    decide

/-- Concrete Inactive target whose spawn time has long passed (C2 failing input). -/
def targetSpawnW : Target :=
  { id := tidT1
    position := { x := 50000, y := 0, z := 1000 }
    velocity := Velocity3D.new 0 0 0
    destination := Position3D.new 0 0 0
    arrival_radius := 100
    endurance := 1
    max_endurance := 1
    status := AgentStatus.Inactive
    group_id := gidG1
    spawn_time := 0
    speed := 0 }

/-- Scenario configuration carried by the concrete engines. -/
def cfgW : ScenarioConfig :=
  { world := { distance_conventions := { intercept := "3D" } }
    policy := { missile_guidance :=
                  { n := 3, endgame_factor := 2, endgame_miss_increase_ticks := 3 }
                launcher_initially_cooled := true }
    missile_defaults := { kinematics :=
                  { initial_speed_mps := 300, max_speed_mps := 1200, max_accel_mps2 := 80,
                    max_turn_rate_deg_s := 40, intercept_radius_m := 50 } } }

/-- Command post with no detections, assignments or priorities. -/
def cpEmptyW : CommandPost :=
  { id := "CP001"
    position := Position3D.new 0 0 0
    arrival_radius := 100
    status := AgentStatus.Active
    detected_targets := []
    missile_assignments := []
    target_priorities := [] }

/-- Engine holding only the not-yet-spawned target (C2 failing input). -/
def engineSpawnW : SimulationEngine :=
  { current_time := 0
    dt := 0.1
    command_post := cpEmptyW
    launchers := []
    targets := [targetSpawnW]
    missiles := []
    scenario_config := cfgW
    target_tick_clock := 0 }

/-- C2 (code bug): `SimulationEngine::process_targets` only ticks targets for
which `is_active()` already holds, so an Inactive target is never ticked,
`check_spawn` never runs for it, and it never transitions to Active — even
though its spawn time has been reached (first conjunct) and `check_spawn`
itself would spawn it if it were called (last conjunct). -/
theorem inactive_target_never_spawns :
    engineSpawnW.current_time ≥ targetSpawnW.spawn_time ∧
    targetSpawnW.status = AgentStatus.Inactive ∧
    (engineSpawnW.process_targets).targets = [targetSpawnW] ∧
    (targetSpawnW.check_spawn engineSpawnW.current_time).status = AgentStatus.Active := by
  refine ⟨by norm_num [engineSpawnW, targetSpawnW], rfl, ?_, ?_⟩
  · simp [SimulationEngine.process_targets, process_targets_loop, Target.is_active,
      targetSpawnW, engineSpawnW]
  · norm_num [Target.check_spawn, targetSpawnW, engineSpawnW]

/-- `Real.sqrt 25 = 5`, for concrete distance evaluations. -/
lemma sqrt_25_eq : Real.sqrt 25 = 5 := sqrt_eq_of_sq (by norm_num) (by norm_num)

/-- `Real.sqrt 100 = 10`, for concrete distance evaluations. -/
lemma sqrt_100_eq : Real.sqrt 100 = 10 := sqrt_eq_of_sq (by norm_num) (by norm_num)

/-- `Real.sqrt 1000000 = 1000`, for concrete distance evaluations. -/
lemma sqrt_1000000_eq : Real.sqrt 1000000 = 1000 := sqrt_eq_of_sq (by norm_num) (by norm_num)

/-- Ready launcher far from the target (C4 failing input, index 0). -/
def launcherFarW : Launcher :=
  { launcherFireW with id := "L001", position := Position3D.new 4 3 0 }

/-- Ready launcher at the target (C4 failing input, index 1). -/
def launcherNearW : Launcher :=
  { launcherFireW with id := "L002", position := Position3D.new 0 0 0 }

/-- C4 (code bug): `CommandPost::select_best_launcher` computes every
candidate's "distance" as the target-to-command-post distance (the same
value for all launchers) and compares synthesized index-based IDs, so with
equal cooldowns it returns the first Ready launcher (index 0) even though
launcher 1 is strictly closer to the target in XY. -/
theorem select_best_launcher_ignores_distance :
    CommandPost.select_best_launcher cpEmptyW [launcherFarW, launcherNearW] originPos = some 0 ∧
    (launcherNearW.position).distance_xy originPos <
      (launcherFarW.position).distance_xy originPos ∧
    launcherFarW.cooldown_remaining = launcherNearW.cooldown_remaining ∧
    launcherFarW.can_launch ∧ launcherNearW.can_launch := by
  have hclA : launcherFarW.can_launch :=
    ⟨rfl, by norm_num [launcherFarW, launcherFireW], by norm_num [launcherFarW, launcherFireW]⟩
  have hclB : launcherNearW.can_launch :=
    ⟨rfl, by norm_num [launcherNearW, launcherFireW], by norm_num [launcherNearW, launcherFireW]⟩
  have hstr : ¬ ((fakeIdPrefix ++ pad3 2 : String) < (fakeIdPrefix ++ pad3 1 : String)) := by
    rw [String.lt_iff_toList_lt]
    decide
  have hnear : (launcherNearW.position).distance_xy originPos = 0 := by
    norm_num [launcherNearW, launcherFireW, originPos, Position3D.new, Position3D.distance_xy,
      fclamp]
  have hfar : (launcherFarW.position).distance_xy originPos = 5 := by
    norm_num [launcherFarW, launcherFireW, originPos, Position3D.new, Position3D.distance_xy,
      fclamp, sqrt_25_eq]
  refine ⟨?_, ?_, rfl, hclA, hclB⟩
  · simp only [CommandPost.select_best_launcher, select_best_launcher_loop]
    norm_num [Launcher.can_launch, launcherFarW, launcherNearW, launcherFireW, hstr]
  · rw [hnear, hfar]
    norm_num

/-- The single priority entry the command post holds in the C3 scenario:
target `T1` with endurance 1 and no missiles assigned yet. -/
def priorityT1W : TargetPriority :=
  { target_id := tidT1
    tgo := some 10
    distance_xy := 100
    assigned_missiles := 0
    target_endurance := 1 }

/-- Command post holding the single `T1` priority and no assignments. -/
def cpAssignW : CommandPost :=
  { cpEmptyW with target_priorities := [priorityT1W] }

/-- First ready launcher of the C3 scenario. -/
def launcherAW : Launcher := { launcherFireW with id := "L001", current_missiles := 1 }

/-- Second ready launcher of the C3 scenario. -/
def launcherBW : Launcher := { launcherFireW with id := "L002", current_missiles := 1 }

/-- Engine for the C3 scenario: one threat of endurance 1, two Ready launchers. -/
def engineAssignW : SimulationEngine :=
  { current_time := 0
    dt := 0.1
    command_post := cpAssignW
    launchers := [launcherAW, launcherBW]
    targets := []
    missiles := []
    scenario_config := cfgW
    target_tick_clock := 0 }

/-- C3 (code bug): in one `process_launchers` phase both Ready launchers are
given the same target `T1` (endurance 1) because the engine path never
records fired missiles in `missile_assignments` — two missiles are committed
against an endurance-1 target in a single tick and the assignments map stays
empty, so no fired missile ID is ever appended. -/
theorem double_commit_in_one_tick :
    cpAssignW.target_priorities.map TargetPriority.target_endurance = [1] ∧
    ((engineAssignW.process_launchers).missiles).map Missile.target_id = [tidT1, tidT1] ∧
    (engineAssignW.process_launchers).command_post.missile_assignments = [] := by
  have hclA : launcherAW.can_launch :=
    ⟨rfl, by norm_num [launcherAW, launcherFireW], by norm_num [launcherAW, launcherFireW]⟩
  have hclB : launcherBW.can_launch :=
    ⟨rfl, by norm_num [launcherBW, launcherFireW], by norm_num [launcherBW, launcherFireW]⟩
  refine ⟨rfl, ?_, rfl⟩
  simp only [SimulationEngine.process_launchers, process_launchers_loop, engineAssignW,
    cpAssignW, cpEmptyW, CommandPost.get_missile_assignment, get_missile_assignment_loop,
    priorityT1W]
  norm_num [Launcher.is_active, Launcher.can_launch, launcherAW, launcherBW, launcherFireW,
    Launcher.fire_missile_at_target, Launcher.tick, Launcher.queue_target,
    Missile.initFromConfig, Missile.new, cfgW]

/-- `Missile::update_guidance_phase` never changes position or intercept radius. -/
lemma update_guidance_phase_preserves (m : Missile) (target_position : Position3D) :
    (m.update_guidance_phase target_position).position = m.position ∧
    (m.update_guidance_phase target_position).intercept_radius = m.intercept_radius := by
  unfold Missile.update_guidance_phase
  cases m.guidance_phase <;> simp <;> split_ifs <;> simp

/-- `Missile::track_miss_distance` never changes position or intercept radius. -/
lemma track_miss_distance_preserves (m : Missile) (target_position : Position3D) :
    ((m.track_miss_distance target_position).2).position = m.position ∧
    ((m.track_miss_distance target_position).2).intercept_radius = m.intercept_radius := by
  refine ⟨?_, ?_⟩ <;>
    (simp only [Missile.track_miss_distance]
     split_ifs <;> rfl)

/-- C6 (amended): in `Missile::perform_checks` the out-of-bounds check fires
first and returns immediately; otherwise the phase update and the
miss-distance tracking run, and then the collision check is evaluated
unconditionally — if `d ≤ intercept_radius` the final status is
Destroyed/Hit (overwriting a self-destruct set by the tracking in the same
tick), and only when the collision predicate fails is the tracked state
(possibly SelfDestruct/SelfDestruct) the final one. -/
theorem perform_checks_order (m : Missile) (target_position : Position3D) :
    (¬ m.position.is_in_simulation_bounds →
      m.perform_checks target_position =
        { m with status := AgentStatus.SelfDestruct,
                 end_reason := some MissileEndReason.OutOfBounds }) ∧
    (m.position.is_in_simulation_bounds →
      (m.position.distance_3d target_position ≤ m.intercept_radius →
        (m.perform_checks target_position).status = AgentStatus.Destroyed ∧
        (m.perform_checks target_position).end_reason = some MissileEndReason.Hit) ∧
      (¬ m.position.distance_3d target_position ≤ m.intercept_radius →
        m.perform_checks target_position =
          ((m.update_guidance_phase target_position).track_miss_distance target_position).2)) := by
  by_cases hb : m.position.is_in_simulation_bounds
  · refine ⟨fun h => absurd hb h, fun _ => ?_⟩
    have hpos : (((m.update_guidance_phase target_position).track_miss_distance
        target_position).2).position = m.position := by
      rw [(track_miss_distance_preserves _ _).1, (update_guidance_phase_preserves _ _).1]
    have hrad : (((m.update_guidance_phase target_position).track_miss_distance
        target_position).2).intercept_radius = m.intercept_radius := by
      rw [(track_miss_distance_preserves _ _).2, (update_guidance_phase_preserves _ _).2]
    constructor
    · intro hc
      have hcol : (((m.update_guidance_phase target_position).track_miss_distance
          target_position).2).check_collision target_position := by
        unfold Missile.check_collision
        rw [hpos, hrad]
        exact hc
      unfold Missile.perform_checks
      rw [if_neg (not_not_intro hb), if_pos hcol]
      exact ⟨rfl, rfl⟩
    · intro hc
      have hcol : ¬ (((m.update_guidance_phase target_position).track_miss_distance
          target_position).2).check_collision target_position := by
        unfold Missile.check_collision
        rw [hpos, hrad]
        exact hc
      unfold Missile.perform_checks
      rw [if_neg (not_not_intro hb), if_neg hcol]
  · refine ⟨fun _ => ?_, fun h => absurd h hb⟩
    unfold Missile.perform_checks
    rw [if_pos hb]

/-- Witness missile for the out-of-bounds branch of `perform_checks_order`. -/
def missileOobW : Missile :=
  { Missile.new tidT1 { x := 2000000, y := 0, z := 0 } tidT1 with intercept_radius := 10 }

/-- Witness for the amended C6 theorem on a concrete out-of-bounds missile. -/
theorem perform_checks_order_witness :
    ¬ missileOobW.position.is_in_simulation_bounds ∧
    missileOobW.perform_checks originPos =
      { missileOobW with status := AgentStatus.SelfDestruct,
                         end_reason := some MissileEndReason.OutOfBounds } := by
  have hnb : ¬ missileOobW.position.is_in_simulation_bounds := by
    intro h
    have hx := h.2.1
    norm_num [missileOobW, Missile.new] at hx
  exact ⟨hnb, (perform_checks_order missileOobW originPos).1 hnb⟩

/-- Counterexample missile for C6 as stated: already in Endgame, previous
miss distance 9, self-destruct threshold one increasing tick, intercept
radius 10, at distance 10 from the (origin) target position. -/
def missileSdW : Missile :=
  { Missile.new tidT1 { x := 6, y := 8, z := 0 } tidT1 with
      intercept_radius := 10
      guidance_phase := GuidancePhase.Endgame
      miss_distance_history := [9]
      endgame_miss_increase_ticks := 1 }

/-- C6 counterexample: the miss-distance self-destruct predicate fires in
this tick (first conjunct), yet `perform_checks` leaves the missile
Destroyed with end reason Hit, because the collision check still runs after
the self-destruct — the claim that a firing self-destruct makes the final
status SelfDestruct even when `d ≤ intercept_radius` is false. -/
theorem perform_checks_collision_overrides_self_destruct :
    ((missileSdW.update_guidance_phase originPos).track_miss_distance originPos).1 = true ∧
    missileSdW.position.distance_3d originPos ≤ missileSdW.intercept_radius ∧
    (missileSdW.perform_checks originPos).status = AgentStatus.Destroyed ∧
    (missileSdW.perform_checks originPos).end_reason = some MissileEndReason.Hit := by
  have hd : missileSdW.position.distance_3d originPos = 10 := by
    norm_num [missileSdW, Missile.new, originPos, Position3D.new, Position3D.distance_3d,
      fclamp, sqrt_100_eq]
  have hb : missileSdW.position.is_in_simulation_bounds := by
    refine ⟨?_, ?_, ?_, ?_, ?_, ?_⟩ <;> norm_num [missileSdW, Missile.new]
  have hd2 : ({ x := 6, y := 8, z := 0 } : Position3D).distance_3d originPos = 10 := hd
  have hfire : ((missileSdW.update_guidance_phase originPos).track_miss_distance originPos).1
      = true := by
    norm_num [Missile.update_guidance_phase, Missile.track_miss_distance,
      Missile.calculate_miss_distance, missileSdW, Missile.new, hd2]
  have hcol0 : missileSdW.position.distance_3d originPos ≤ missileSdW.intercept_radius := by
    rw [hd]
    norm_num [missileSdW, Missile.new]
  have hcol : (((missileSdW.update_guidance_phase originPos).track_miss_distance
      originPos).2).check_collision originPos := by
    unfold Missile.check_collision
    rw [(track_miss_distance_preserves _ _).1, (update_guidance_phase_preserves _ _).1,
      (track_miss_distance_preserves _ _).2, (update_guidance_phase_preserves _ _).2]
    exact hcol0
  have hpc : missileSdW.perform_checks originPos =
      { (((missileSdW.update_guidance_phase originPos).track_miss_distance originPos).2) with
          status := AgentStatus.Destroyed, end_reason := some MissileEndReason.Hit } := by
    unfold Missile.perform_checks
    rw [if_neg (not_not_intro hb), if_pos hcol]
  refine ⟨hfire, hcol0, ?_, ?_⟩ <;> rw [hpc]

/-- C1 failing-input missile: Active, bound to target `T1`, sitting 5 m from
the origin but 1000 m from its actual target. -/
def missileTickW : Missile :=
  { Missile.new mintedId { x := 3, y := 4, z := 0 } tidT1 with
      intercept_radius := 10
      guidance_n := 3
      endgame_threshold := 20
      endgame_miss_increase_ticks := 3 }

/-- C1 failing-input target: the missile's bound target, 1000 m away. -/
def targetFarW : Target :=
  { targetSpawnW with position := { x := 1003, y := 4, z := 0 }, status := AgentStatus.Active }

/-- Engine holding the bound target and the Active missile (C1 failing input). -/
def engineMissileW : SimulationEngine :=
  { engineSpawnW with targets := [targetFarW], missiles := [missileTickW] }

set_option maxHeartbeats 1000000 in
/-- C1 (code bug): `Missile::tick` runs the per-tick update against the
hard-coded placeholder origin instead of resolving the bound target's
position, and the engine's Missile phase neither passes target state nor
produces TargetLost.  The concrete missile is 1000 m from its bound target
(first conjunct), yet one tick declares a Hit (it is within
`intercept_radius` of the origin), and `process_missiles` then discards it. -/
theorem missile_tick_ignores_bound_target :
    targetFarW.position.distance_3d missileTickW.position = 1000 ∧
    (missileTickW.tick 0.1).status = AgentStatus.Destroyed ∧
    (missileTickW.tick 0.1).end_reason = some MissileEndReason.Hit ∧
    (engineMissileW.process_missiles).missiles = [] := by
  have hd : targetFarW.position.distance_3d missileTickW.position = 1000 := by
    norm_num [targetFarW, targetSpawnW, missileTickW, Missile.new, Position3D.distance_3d,
      sqrt_1000000_eq]
  have htick : (missileTickW.tick 0.1).status = AgentStatus.Destroyed ∧
      (missileTickW.tick 0.1).end_reason = some MissileEndReason.Hit := by
    norm_num [Missile.tick, Missile.update_kinematics, Missile.calculate_proportional_navigation,
      Missile.calculate_direct_pursuit, Missile.update_attitude, Attitude3D.from_velocity,
      Attitude3D.new, Velocity3D.magnitude_xy, Velocity3D.magnitude, Velocity3D.new,
      Velocity3D.addAccel, Velocity3D.clamp_magnitude, Acceleration3D.new, Acceleration3D.add,
      Acceleration3D.smul, Acceleration3D.clamp_magnitude, Acceleration3D.magnitude,
      Position3D.new, Position3D.add, Position3D.sub, Position3D.magnitude,
      Position3D.distance_3d, Position3D.is_in_simulation_bounds, fclamp, angle_difference,
      normalize_angle, frem, fsignum, Missile.perform_checks, Missile.update_guidance_phase,
      Missile.track_miss_distance, Missile.calculate_miss_distance, Missile.check_collision,
      missileTickW, Missile.new, sqrt_25_eq]
  have hact : missileTickW.status = AgentStatus.Active := rfl
  refine ⟨hd, htick.1, htick.2, ?_⟩
  simp [SimulationEngine.process_missiles, engineMissileW, engineSpawnW, Missile.is_active,
    hact, htick.1]

end
